import Mathlib

/-!
Verification of the contact fetch-and-render core of the holded-nextjs
dashboard (src/app/page.tsx, src/unnamed/part_000).

The core consists of:
* `getContacts` (a server action): authenticates the remote client,
  calls `listContacts`, filters the returned `data` array on
  `typeof contact?.id === 'string'`, and projects each retained record
  into a local `Contact` shape; any thrown error is caught and turned
  into an empty list.
* `ContactsTable` (a client component): renders one table row per
  contact, with `getTypeColor` mapping the contact `type` to a chip
  color.

The embedding below is shallow: JavaScript field values that may be
`null`, `undefined`, or of several runtime types are modelled with
`Option` and a small `JsonVal` type; the remote call and the try/catch
boundary are modelled with `Except`.
-/

/-- A JavaScript runtime value as it can appear in the `id` field of a
remote contact record: `null`, a string, a number, or a boolean.
`undefined` (field absent) is modelled by `Option.none` at the field. -/
inductive JsonVal where
  | jnull : JsonVal
  | jstr : String → JsonVal
  | jnum : Int → JsonVal
  | jbool : Bool → JsonVal
deriving DecidableEq, Repr

/-- A remote contact record as returned inside `contacts.data` by the
Holded `listContacts` call (`ListContactsResponse200[number]`).  Every
field is optional; `id` may additionally hold a non-string value. -/
structure RemoteContact where
  id : Option JsonVal := none
  customId : Option String := none
  name : Option String := none
  code : Option String := none
  tradeName : Option String := none
  email : Option String := none
  mobile : Option String := none
  phone : Option String := none
  type : Option String := none
deriving DecidableEq, Repr

/-- The local `Contact` interface from src/unnamed/part_000: `id` is a
required string, all other fields optional.  The `type` field is copied
from the remote record by an unchecked cast (`contact.type as
Contact['type']`), so at runtime it holds an arbitrary optional string;
we model it as `Option String`. -/
structure Contact where
  id : String
  customId : Option String := none
  name : Option String := none
  code : Option String := none
  tradeName : Option String := none
  email : Option String := none
  mobile : Option String := none
  phone : Option String := none
  type : Option String := none
deriving DecidableEq, Repr

/-- A JavaScript runtime error, as thrown inside the `try` block of
`getContacts` (auth failure, network failure, malformed response,
TypeError during evaluation, ...). -/
structure JsError where
  message : String
deriving DecidableEq, Repr

/-- `typeof v === 'string'` on a possibly-absent JavaScript value:
true exactly when the value is present and is a string. -/
def jsTypeofIsString : Option JsonVal → Bool
  | some (JsonVal.jstr _) => true
  | _ => false

/-- The optional member access `contact?.id`: an array entry that is
`null`/`undefined` (modelled as `none`) short-circuits to `undefined`
(modelled as `none`) instead of throwing. -/
def memberIdOpt : Option RemoteContact → Option JsonVal
  | none => none
  | some c => c.id

/-- The strict member access `contact.id` (no optional chaining), which
the source does NOT use: on a `null`/`undefined` entry it throws a
TypeError.  Kept to contrast with `memberIdOpt`. -/
def memberIdStrict : Option RemoteContact → Except JsError (Option JsonVal)
  | none => Except.error ⟨"TypeError: Cannot read properties of null"⟩
  | some c => Except.ok c.id

/-- The filter predicate of `getContacts`
(`typeof contact?.id === 'string'`). -/
def idFilterPred (entry : Option RemoteContact) : Bool :=
  jsTypeofIsString (memberIdOpt entry)

/-- Evaluation of the filter predicate as a JavaScript expression that
could in principle throw: the only fallible step is the member access,
and optional chaining (`memberIdOpt`) replaces the fallible strict
access, so every branch produces a value. -/
def idFilterPredE (entry : Option RemoteContact) : Except JsError Bool :=
  match entry with
  | none => Except.ok (jsTypeofIsString none)
  | some c => Except.ok (jsTypeofIsString c.id)

/-- Extract the string payload from the `id` field of a filtered entry.
On entries that passed `idFilterPred` the field is known to be a string;
the `""` defaults are dead branches required only to make the function
total. -/
def idString (entry : Option RemoteContact) : String :=
  match memberIdOpt entry with
  | some (JsonVal.jstr s) => s
  | _ => ""

/-- The projection in the `.map` of `getContacts`: copy
`id, customId, name, code, tradeName, email, mobile, phone` and `type`
(the unchecked cast) field by field into a local `Contact`. -/
def projectContact (entry : Option RemoteContact) : Contact :=
  { id := idString entry
    customId := (memberRec entry).customId
    name := (memberRec entry).name
    code := (memberRec entry).code
    tradeName := (memberRec entry).tradeName
    email := (memberRec entry).email
    mobile := (memberRec entry).mobile
    phone := (memberRec entry).phone
    type := (memberRec entry).type }
where
  /-- After the type-guard filter the entry is a present record; the
  default empty record is a dead branch making the access total. -/
  memberRec : Option RemoteContact → RemoteContact
    | some c => c
    | none => {}

/-- Evaluation of the `try` block body after the remote call returned
`data`: run the filter predicate over every entry (each evaluation may
in principle throw), keep the entries on which it returned `true`, and
map the projection over them. -/
def tryBody (data : List (Option RemoteContact)) :
    Except JsError (List Contact) := do
  let flags ← data.mapM idFilterPredE
  let retained := (data.zip flags).filterMap
    (fun p => if p.2 then some p.1 else none)
  return retained.map projectContact

/-- `getContacts`: the remote `listContacts` call either rejects
(`Except.error`) or resolves to a response whose `data` array may
contain `null`/`undefined` entries.  Inside `try`, the body filters and
projects; `catch` converts any error — from the remote call or from the
body — into the empty list. -/
def getContacts (remote : Except JsError (List (Option RemoteContact))) :
    List Contact :=
  match remote >>= tryBody with
  | Except.ok l => l
  | Except.error _ => []

/-- Where the argument of `holded.auth(...)` comes from. -/
inductive CredentialSource where
  | literal : String → CredentialSource
  | envVar : String → CredentialSource
deriving DecidableEq, Repr

/-- The `holded.auth` argument of the `getContacts` variant at
src/app/page.tsx:22: the hardcoded string literal
`"964f48473d755069d293cd3227d935b1"`. -/
def getContactsAuthArgLine22 : CredentialSource :=
  CredentialSource.literal "964f48473d755069d293cd3227d935b1"

/-- The `holded.auth` argument of the `getContacts` variant at
src/app/page.tsx:52: `process.env.HOLDED_API_KEY`. -/
def getContactsAuthArgLine52 : CredentialSource :=
  CredentialSource.envVar "HOLDED_API_KEY"

/-- `getTypeColor` from `ContactsTable`: `!type` (JavaScript falsiness,
true for `undefined` and for the empty string) returns `"default"`,
then a switch over the five known type strings, with default
`"default"`. -/
def getTypeColor (type : Option String) : String :=
  if type = none ∨ type = some "" then "default"
  else
    match type with
    | some "client" => "success"
    | some "supplier" => "warning"
    | some "lead" => "primary"
    | some "debtor" => "danger"
    | some "creditor" => "secondary"
    | _ => "default"

/-- The chip rendered in the TIPO cell of a row: color from
`getTypeColor`, label the raw `type` value. -/
structure Chip where
  color : String
  label : Option String
deriving DecidableEq, Repr

/-- One rendered table row of `ContactsTable`: React key `contact.id`
and the seven cells in column order. -/
structure Row where
  key : String
  name : Option String
  email : Option String
  phone : Option String
  chip : Chip
  tradeName : Option String
  code : Option String
  mobile : Option String
deriving DecidableEq, Repr

/-- The row produced for one contact by the `contacts.map` in
`ContactsTable`. -/
def renderRow (c : Contact) : Row :=
  { key := c.id
    name := c.name
    email := c.email
    phone := c.phone
    chip := { color := getTypeColor c.type, label := c.type }
    tradeName := c.tradeName
    code := c.code
    mobile := c.mobile }

/-- `ContactsTable`: one row per contact, in input order. -/
def contactsTable (contacts : List Contact) : List Row :=
  contacts.map renderRow

/-- Spec-side Fetcher, written from the spec's words for claim C1 as
stated: keep exactly the records whose `id` field is present and is a
NON-EMPTY string, in original order, and project them. -/
def specFetcherNonEmptyId (data : List (Option RemoteContact)) :
    List Contact :=
  (data.filter (fun entry =>
    match entry with
    | some c =>
      match c.id with
      | some (JsonVal.jstr s) => s ≠ ""
      | _ => false
    | none => false)).map projectContact

/-- Spec-side Fetcher for the amended claim C1: keep exactly the records
whose `id` field is present and is a string (the empty string included),
in original order, and project them. -/
def specFetcherStringId (data : List (Option RemoteContact)) :
    List Contact :=
  (data.filter (fun entry =>
    match entry with
    | some c =>
      match c.id with
      | some (JsonVal.jstr _) => true
      | _ => false
    | none => false)).map projectContact

/-- A remote record whose `id` is present but is the EMPTY string:
`typeof "" === 'string'` holds, so the source filter keeps it. -/
def emptyIdRecord : RemoteContact :=
  { id := some (JsonVal.jstr ""), name := some "NoId" }

/-- The end-to-end scenario response from the spec:
`data = [{id:"1",name:"Acme",type:"client"}, {id:null,name:"Bad"},
{id:"3",name:"Beta",type:"supplier"}]`. -/
def scenarioData : List (Option RemoteContact) :=
  [ some { id := some (JsonVal.jstr "1"), name := some "Acme",
           type := some "client" },
    some { id := some JsonVal.jnull, name := some "Bad" },
    some { id := some (JsonVal.jstr "3"), name := some "Beta",
           type := some "supplier" } ]

/-- A sample valid DisplayContact used to instantiate row-rendering
statements. -/
def sampleContact : Contact :=
  { id := "7", name := some "Ada", type := some "lead" }

/-- A sample retained remote record with several optional fields present
and several absent, used to instantiate passthrough statements. -/
def passthroughRecord : RemoteContact :=
  { id := some (JsonVal.jstr "42"), name := some "Ada Ltd",
    email := some "ops@ada.example", type := some "client" }

/-- A retained remote record whose `type` string is outside the
enumeration {client, supplier, lead, debtor, creditor}. -/
def unrecognizedTypeRecord : RemoteContact :=
  { id := some (JsonVal.jstr "9"), type := some "shareholder" }

/-- A `data` array containing a `null`/`undefined` entry followed by a
valid record. -/
def nullEntryData : List (Option RemoteContact) :=
  [none, some { id := some (JsonVal.jstr "5") }]

/-! ## Shared lemmas -/

lemma idFilterPredE_eq (entry : Option RemoteContact) :
    idFilterPredE entry = Except.ok (idFilterPred entry) := by
  cases entry <;> rfl

lemma except_ok_bind {α β : Type} (x : α) (f : α → Except JsError β) :
    (Except.ok x >>= f) = f x := rfl

lemma mapM_loop_idFilterPredE (l : List (Option RemoteContact))
    (acc : List Bool) :
    List.mapM.loop idFilterPredE l acc =
      Except.ok (acc.reverse ++ l.map idFilterPred) := by
  induction l generalizing acc with
  | nil =>
    simp only [List.mapM.loop, List.map_nil, List.append_nil]
    rfl
  | cons a l ih =>
    simp [List.mapM.loop, idFilterPredE_eq, except_ok_bind, ih]

lemma mapM_idFilterPredE (data : List (Option RemoteContact)) :
    data.mapM idFilterPredE = Except.ok (data.map idFilterPred) := by
  have h := mapM_loop_idFilterPredE data []
  simpa [List.mapM] using h

lemma zip_flags_filter (l : List (Option RemoteContact)) :
    (l.zip (l.map idFilterPred)).filterMap
      (fun p => if p.2 then some p.1 else none) = l.filter idFilterPred := by
  induction l with
  | nil => rfl
  | cons a l ih =>
    simp only [List.map_cons, List.zip_cons_cons, List.filterMap_cons,
      List.filter_cons]
    cases h : idFilterPred a <;> simp [h, ih]

lemma tryBody_eq (data : List (Option RemoteContact)) :
    tryBody data = Except.ok ((data.filter idFilterPred).map projectContact) := by
  unfold tryBody
  rw [mapM_idFilterPredE]
  simp [zip_flags_filter]

lemma getContacts_ok_eq (data : List (Option RemoteContact)) :
    getContacts (Except.ok data) =
      (data.filter idFilterPred).map projectContact := by
  unfold getContacts
  have : (Except.ok data >>= tryBody) = tryBody data := rfl
  rw [this, tryBody_eq]

lemma filter_pred_drop_none (data : List (Option RemoteContact)) :
    data.filter idFilterPred =
      (data.filter (fun e => e.isSome)).filter idFilterPred := by
  induction data with
  | nil => rfl
  | cons a l ih =>
    cases a with
    | none =>
      have hf : idFilterPred none = false := rfl
      simp [List.filter_cons, hf, ih]
    | some c =>
      cases h : idFilterPred (some c) <;> simp [List.filter_cons, h, ih]

/-! ## Claim theorems -/

/-- C2: if the remote `listContacts` call throws or rejects for any
reason, `getContacts` returns the empty list and propagates no
exception to its caller. -/
theorem getContacts_error_masked (e : JsError) :
    getContacts (Except.error e) = [] := rfl

/-- C1 counterexample: on the input `[{id: "", name: "NoId"}]` the code
retains the empty-string-id record, so `getContacts` does NOT return
exactly the subset of records with a non-empty string `id`. -/
theorem getContacts_not_specFetcherNonEmptyId :
    getContacts (Except.ok [some emptyIdRecord]) ≠
      specFetcherNonEmptyId [some emptyIdRecord] := by
  decide

/-- C1 (amended): `getContacts` returns exactly the subset of records
whose `id` field is present and is a string (the empty string included),
in the original relative order; every other record is silently
dropped. -/
theorem getContacts_eq_specFetcherStringId
    (data : List (Option RemoteContact)) :
    getContacts (Except.ok data) = specFetcherStringId data := by
  rw [getContacts_ok_eq]
  unfold specFetcherStringId
  congr 1
  apply List.filter_congr
  intro entry _
  rcases entry with _ | c
  · rfl
  · rcases h : c.id with _ | v
    · simp [idFilterPred, memberIdOpt, jsTypeofIsString, h]
    · rcases v <;> simp [idFilterPred, memberIdOpt, jsTypeofIsString, h]

/-- C3: `getTypeColor` maps "client" to success, "supplier" to warning,
"lead" to primary, "debtor" to danger, "creditor" to secondary, an
absent type to default, and every other string to default. -/
theorem getTypeColor_exhaustive :
    getTypeColor (some "client") = "success" ∧
    getTypeColor (some "supplier") = "warning" ∧
    getTypeColor (some "lead") = "primary" ∧
    getTypeColor (some "debtor") = "danger" ∧
    getTypeColor (some "creditor") = "secondary" ∧
    getTypeColor none = "default" ∧
    ∀ t : String,
      t ∉ ["client", "supplier", "lead", "debtor", "creditor"] →
        getTypeColor (some t) = "default" := by
  refine ⟨by decide, by decide, by decide, by decide, by decide,
    by decide, ?_⟩
  intro t ht
  simp only [List.mem_cons, List.not_mem_nil, or_false, not_or] at ht
  obtain ⟨h1, h2, h3, h4, h5⟩ := ht
  by_cases h0 : t = ""
  · subst h0
    simp [getTypeColor]
  · unfold getTypeColor
    rw [if_neg (by simp [h0])]
    split <;> simp_all

/-- Witness for C3 at the unrecognized type value "archived". -/
theorem getTypeColor_exhaustive_witness :
    getTypeColor (some "archived") = "default" :=
  getTypeColor_exhaustive.2.2.2.2.2.2 "archived" (by decide)

/-- C4: `getContacts` is the projection mapped over the retained
records, and on every retained record the projection copies each of
`id, customId, name, code, tradeName, email, mobile, phone` (and `type`)
unchanged; absent input fields stay absent (`none`) on the output. -/
theorem getContacts_field_passthrough
    (data : List (Option RemoteContact)) :
    getContacts (Except.ok data) =
      (data.filter idFilterPred).map projectContact ∧
    ∀ c : RemoteContact, idFilterPred (some c) = true →
      ∃ s, c.id = some (JsonVal.jstr s) ∧
        projectContact (some c) =
          { id := s, customId := c.customId, name := c.name,
            code := c.code, tradeName := c.tradeName, email := c.email,
            mobile := c.mobile, phone := c.phone, type := c.type } := by
  refine ⟨getContacts_ok_eq data, ?_⟩
  intro c hc
  have hc' : jsTypeofIsString c.id = true := hc
  rcases h : c.id with _ | v
  · rw [h] at hc'
    exact absurd hc' (by simp [jsTypeofIsString])
  · rcases v with _ | s | n | b
    · rw [h] at hc'
      exact absurd hc' (by simp [jsTypeofIsString])
    · refine ⟨s, rfl, ?_⟩
      simp [projectContact, idString, memberIdOpt, projectContact.memberRec, h]
    · rw [h] at hc'
      exact absurd hc' (by simp [jsTypeofIsString])
    · rw [h] at hc'
      exact absurd hc' (by simp [jsTypeofIsString])

/-- Witness for C4 at a record with `name`, `email` present and the
other optional fields absent. -/
theorem getContacts_field_passthrough_witness :
    getContacts (Except.ok [some passthroughRecord]) =
      (([some passthroughRecord].filter idFilterPred).map
        projectContact) ∧
    (∃ s, passthroughRecord.id = some (JsonVal.jstr s) ∧
      projectContact (some passthroughRecord) =
        { id := s, customId := passthroughRecord.customId,
          name := passthroughRecord.name,
          code := passthroughRecord.code,
          tradeName := passthroughRecord.tradeName,
          email := passthroughRecord.email,
          mobile := passthroughRecord.mobile,
          phone := passthroughRecord.phone,
          type := passthroughRecord.type }) :=
  ⟨(getContacts_field_passthrough [some passthroughRecord]).1,
   (getContacts_field_passthrough [some passthroughRecord]).2
     passthroughRecord (by decide)⟩

/-- C5: `ContactsTable` renders exactly one row per contact, in input
order, with row key equal to the contact's `id`. -/
theorem contactsTable_row_per_contact (contacts : List Contact) :
    (contactsTable contacts).length = contacts.length ∧
    ∀ (i : Nat) (c : Contact), contacts[i]? = some c →
      (contactsTable contacts)[i]? = some (renderRow c) ∧
      (renderRow c).key = c.id := by
  refine ⟨by simp [contactsTable], ?_⟩
  intro i c hc
  exact ⟨by simp [contactsTable, List.getElem?_map, hc], rfl⟩

/-- Witness for C5 at the one-element list `[sampleContact]`. -/
theorem contactsTable_row_per_contact_witness :
    (contactsTable [sampleContact])[0]? = some (renderRow sampleContact) ∧
    (renderRow sampleContact).key = sampleContact.id :=
  (contactsTable_row_per_contact [sampleContact]).2 0 sampleContact
    (by decide)

/-- C6: on the concrete scenario response, `getContacts` returns the
Acme and Beta records (dropping the null-id one), and rendering them
yields two rows whose chips are success/"client" and
warning/"supplier". -/
theorem endToEnd_scenario :
    getContacts (Except.ok scenarioData) =
      [ { id := "1", name := some "Acme", type := some "client" },
        { id := "3", name := some "Beta", type := some "supplier" } ] ∧
    contactsTable (getContacts (Except.ok scenarioData)) =
      [ { key := "1", name := some "Acme", email := none, phone := none,
          chip := { color := "success", label := some "client" },
          tradeName := none, code := none, mobile := none },
        { key := "3", name := some "Beta", email := none, phone := none,
          chip := { color := "warning", label := some "supplier" },
          tradeName := none, code := none, mobile := none } ] := by
  constructor <;> decide

/-- C7: the `getContacts` variant at src/app/page.tsx:22 passes a
hardcoded string literal to `holded.auth`, while the variant at line 52
passes the `HOLDED_API_KEY` environment variable; the constructors of
`CredentialSource` are distinct, so the line-22 credential is not
environment-supplied. -/
theorem auth_credential_source :
    getContactsAuthArgLine22 =
      CredentialSource.literal "964f48473d755069d293cd3227d935b1" ∧
    getContactsAuthArgLine52 =
      CredentialSource.envVar "HOLDED_API_KEY" :=
  ⟨rfl, rfl⟩

/-- C8: on every retained record, the projection copies the `type`
string into the output unchanged and unvalidated, and the projected
record is in the `getContacts` output. -/
theorem type_cast_passthrough (data : List (Option RemoteContact))
    (c : RemoteContact) (hmem : some c ∈ data)
    (hid : idFilterPred (some c) = true) :
    projectContact (some c) ∈ getContacts (Except.ok data) ∧
    (projectContact (some c)).type = c.type := by
  constructor
  · rw [getContacts_ok_eq]
    exact List.mem_map_of_mem _ (List.mem_filter.mpr ⟨hmem, hid⟩)
  · rfl

/-- Witness for C8 at a record whose `type` is "shareholder", a string
outside the enumeration {client, supplier, lead, debtor, creditor}. -/
theorem type_cast_passthrough_witness :
    projectContact (some unrecognizedTypeRecord) ∈
      getContacts (Except.ok [some unrecognizedTypeRecord]) ∧
    (projectContact (some unrecognizedTypeRecord)).type =
      some "shareholder" :=
  type_cast_passthrough [some unrecognizedTypeRecord]
    unrecognizedTypeRecord (by decide) (by decide)

/-- C9: on a `null`/`undefined` array entry the filter predicate
evaluates without error (to `false`), the `try` body never reaches the
error branch, and dropping the nullish entries first does not change the
output of `getContacts`. -/
theorem nullish_entries_safe (data : List (Option RemoteContact))
    (_h : none ∈ data) :
    idFilterPredE none = Except.ok false ∧
    tryBody data = Except.ok (getContacts (Except.ok data)) ∧
    getContacts (Except.ok data) =
      getContacts (Except.ok (data.filter (fun e => e.isSome))) := by
  refine ⟨rfl, ?_, ?_⟩
  · rw [tryBody_eq, getContacts_ok_eq]
  · rw [getContacts_ok_eq, getContacts_ok_eq, filter_pred_drop_none]

/-- Witness for C9 at a `data` array whose first entry is nullish. -/
theorem nullish_entries_safe_witness :
    idFilterPredE none = Except.ok false ∧
    tryBody nullEntryData =
      Except.ok (getContacts (Except.ok nullEntryData)) ∧
    getContacts (Except.ok nullEntryData) =
      getContacts (Except.ok (nullEntryData.filter (fun e => e.isSome))) :=
  nullish_entries_safe nullEntryData (by decide)

/-- C10: a record whose `id` is the empty string passes the type-only
filter and is retained, so the output contains a DisplayContact whose
`id` is the empty string. -/
theorem emptyId_retained :
    getContacts (Except.ok [some emptyIdRecord]) =
      [projectContact (some emptyIdRecord)] ∧
    (projectContact (some emptyIdRecord)).id = "" := by
  constructor <;> decide
